import Mathlib

/-!
Shallow embedding of `serial_windows.go` from facchinm/go-serial.

The Go functions call Windows syscalls (`CreateFile`, `ReadFile`,
`GetCommState`, `SetCommState`, `CloseHandle`, ...).  We embed each Go
function as a Lean function parameterised by a record of syscall
implementations over an abstract state `σ` (`Sys σ`).  Two instances are
used: an oracle instance that replays prescribed syscall outcomes and logs
every call as an event, and a small operating-system model keeping a table
of open handles.  Machine integers are modelled as `Nat` with explicit
`% 2 ^ 32` / `% 2 ^ 8` where the Go code converts (`uint32(...)`,
`byte(...)`).
-/

namespace Serial

/-- Raw platform (syscall-level) errors: the distinguished Windows error
values that `serial_windows.go` inspects (`syscall.ERROR_ACCESS_DENIED`,
`syscall.ERROR_FILE_NOT_FOUND`), `EINVAL` from `UTF16PtrFromString`, and
any other numbered platform error. -/
inductive PlatformError
  | accessDenied
  | fileNotFound
  | einval
  | other (code : Nat)
  deriving DecidableEq

/-- Modelled from the spec: the error-code enumeration is declared in
`serial.go`, which is not under `src/`; `src/serial_windows.go` references
`ERROR_ENUMERATING_PORTS`, `ERROR_PORT_BUSY`, `ERROR_PORT_NOT_FOUND` and
`ERROR_INVALID_SERIAL_PORT`.  Spec section 7 lists the abstract kinds
`EnumerationFailed`, `PortBusy`, `PortNotFound`, `InvalidSerialPort` and a
distinct kind `InvalidConfiguration`; the enumeration therefore carries
all five as distinct values. -/
inductive ErrorCode
  | ERROR_ENUMERATING_PORTS
  | ERROR_PORT_BUSY
  | ERROR_PORT_NOT_FOUND
  | ERROR_INVALID_SERIAL_PORT
  | ERROR_INVALID_CONFIGURATION
  deriving DecidableEq

/-- An error returned by the library: either a `SerialPortError` with one
of the fixed codes, or a raw platform error surfaced unchanged. -/
inductive PortError
  | serial (code : ErrorCode)
  | platform (e : PlatformError)
  deriving DecidableEq

/-- The native control record (`type DCB struct` in the source); all
fields as `Nat`. -/
structure DCB where
  DCBlength : Nat
  BaudRate : Nat
  Flags : Nat
  wReserved : Nat
  XonLim : Nat
  XoffLim : Nat
  ByteSize : Nat
  Parity : Nat
  StopBits : Nat
  XonChar : Nat
  XoffChar : Nat
  ErrorChar : Nat
  EofChar : Nat
  EvtChar : Nat
  wReserved1 : Nat
  deriving DecidableEq

/-- The zero record, `DCB{}` in Go. -/
def dcbZero : DCB := ⟨0, 0, 0, 0, 0, 0, 0, 0, 0, 0, 0, 0, 0, 0, 0⟩

/-- The `type COMMTIMEOUTS struct` record from the source. -/
structure COMMTIMEOUTS where
  ReadIntervalTimeout : Nat
  ReadTotalTimeoutMultiplier : Nat
  ReadTotalTimeoutConstant : Nat
  WriteTotalTimeoutMultiplier : Nat
  WriteTotalTimeoutConstant : Nat
  deriving DecidableEq

/-- Modelled from the spec: the `Mode` structure is declared in
`serial.go`, which is not under `src/`.  Spec section 3: baud rate
(nonnegative integer, 0 means default 9600), data bits (0 means default
8), parity and stop-bit enumerations (small codes, see the `NOPARITY` /
`ONESTOPBIT` constant groups in the source). -/
structure Mode where
  BaudRate : Nat
  DataBits : Nat
  Parity : Nat
  StopBits : Nat
  deriving DecidableEq

/-- The port object, `type SerialPort struct { handle syscall.Handle }`: only the raw
handle, no open/closed flag. -/
structure SerialPort where
  handle : Nat
  deriving DecidableEq

/-! ### Constants from the source (`const (...)` block) -/

def DCB_BINARY : Nat := 0x00000001
def DCB_PARITY : Nat := 0x00000002
def DCB_OUT_X_CTS_FLOW : Nat := 0x00000004
def DCB_OUT_X_DSR_FLOW : Nat := 0x00000008
def DCB_DTR_CONTROL_ENABLE : Nat := 0x00000010
def DCB_DTR_CONTROL_HANDSHAKE : Nat := 0x00000020
def DCB_DSR_SENSITIVITY : Nat := 0x00000040
def DCB_TX_CONTINUE_ON_XOFF : Nat := 0x00000080
def DCB_OUT_X : Nat := 0x00000100
def DCB_IN_X : Nat := 0x00000200
def DCB_ERROR_CHAR : Nat := 0x00000400
def DCB_NULL : Nat := 0x00000800
def DCB_RTS_CONTROL_ENABLE : Nat := 0x00001000
def DCB_RTS_CONTROL_HANDSHAKE : Nat := 0x00002000
def DCB_RTS_CONTROL_TOGGLE : Nat := 0x00003000
def DCB_ABORT_ON_ERROR : Nat := 0x00004000

/-- Bitwise complement within 32 bits, Go's `^uint32(m)`. -/
def not32 (m : Nat) : Nat := 0xFFFFFFFF ^^^ m

/-- Constant `DCB_DTR_CONTROL_DISABLE_MASK = ^0x00000030` (defined in the source
but never used by it). -/
def DCB_DTR_CONTROL_DISABLE_MASK : Nat := not32 0x00000030
/-- Constant `DCB_RTS_CONTROL_DISABLE_MASK = ^0x00003000` (defined in the source
but never used by it). -/
def DCB_RTS_CONTROL_DISABLE_MASK : Nat := not32 0x00003000

def NOPARITY : Nat := 0
def ODDPARITY : Nat := 1
def EVENPARITY : Nat := 2
def MARKPARITY : Nat := 3
def SPACEPARITY : Nat := 4

def ONESTOPBIT : Nat := 0
def ONE5STOPBITS : Nat := 1
def TWOSTOPBITS : Nat := 2

/-- The timeout record installed by `OpenPort` ("Set timeouts to 1
second" in the source). -/
def openTimeouts : COMMTIMEOUTS :=
  { ReadIntervalTimeout := 0xFFFFFFFF
    ReadTotalTimeoutMultiplier := 0xFFFFFFFF
    ReadTotalTimeoutConstant := 1000
    WriteTotalTimeoutMultiplier := 0
    WriteTotalTimeoutConstant := 0 }

/-- The path prefixing `portName = "\\\\.\\" + portName` from `OpenPort`. -/
def winPath (name : String) : String := "\\\\.\\" ++ name

/-- The registry subkey string passed to `RegOpenKeyEx`. -/
def serialcommKey : String := "HARDWARE\\DEVICEMAP\\SERIALCOMM\\"

/-- Conversion `syscall.UTF16PtrFromString` fails (with `EINVAL`) exactly when the
string contains a NUL character. -/
def containsNul (s : String) : Bool := s.data.contains (Char.ofNat 0)

/-! ### The pure control-record transformations -/

/-- The record rewrite performed by `SetMode` between `GetCommState` and
`SetCommState`: baud rate (default 9600 when `mode.BaudRate == 0`,
otherwise `uint32(mode.BaudRate)`), byte size (default 8 when
`mode.DataBits == 0`, otherwise `byte(mode.DataBits)`), stop bits and
parity (`byte(...)` conversions); every other field is left as fetched. -/
def setModeDCB (mode : Mode) (params : DCB) : DCB :=
  { params with
    BaudRate := if mode.BaudRate = 0 then 9600 else mode.BaudRate % 2 ^ 32
    ByteSize := if mode.DataBits = 0 then 8 else mode.DataBits % 2 ^ 8
    StopBits := mode.StopBits % 2 ^ 8
    Parity := mode.Parity % 2 ^ 8 }

/-- The flag/threshold rewrite performed by `OpenPort` between its
`GetCommState` and `SetCommState` calls, operation for operation in
source order. -/
def openDCBTransform (params : DCB) : DCB :=
  let flags := params.Flags
  let flags := flags ||| (DCB_RTS_CONTROL_ENABLE ||| DCB_DTR_CONTROL_ENABLE)
  let flags := flags &&& not32 DCB_OUT_X_CTS_FLOW
  let flags := flags &&& not32 DCB_OUT_X_DSR_FLOW
  let flags := flags &&& not32 DCB_DSR_SENSITIVITY
  let flags := flags ||| DCB_TX_CONTINUE_ON_XOFF
  let flags := flags &&& not32 (DCB_IN_X ||| DCB_OUT_X)
  let flags := flags &&& not32 DCB_ERROR_CHAR
  let flags := flags &&& not32 DCB_NULL
  let flags := flags &&& not32 DCB_ABORT_ON_ERROR
  { params with
    Flags := flags
    XonLim := 2048
    XoffLim := 512
    XonChar := 17
    XoffChar := 19 }

/-! ### Syscall interface and its two instances -/

/-- One syscall invocation, as recorded by the oracle instance's log. -/
inductive Event
  | createFile (path : String)
  | closeHandle (h : Nat)
  | readFile (h bufLen : Nat)
  | writeFile (h bufLen : Nat)
  | getCommState (h : Nat)
  | setCommState (h : Nat) (d : DCB)
  | setCommTimeouts (h : Nat) (t : COMMTIMEOUTS)
  | setCommBreak (h : Nat)
  | clearCommBreak (h : Nat)
  | sleepEv (ms : Int)
  deriving DecidableEq

/-- The syscalls used by `serial_windows.go`, over an abstract
environment state `σ`.  `readFile` and `writeFile` return the byte count
stored through their out-parameter together with the call's error;
`getCommState` returns the fetched record (`none` on failure, leaving the
caller's buffer untouched); `sleep` models `time.Sleep` of the given
number of milliseconds. -/
structure Sys (σ : Type) where
  createFile : String → σ → Except PlatformError Nat × σ
  closeHandle : Nat → σ → Option PlatformError × σ
  readFile : Nat → Nat → σ → (Nat × Option PlatformError) × σ
  writeFile : Nat → Nat → σ → (Nat × Option PlatformError) × σ
  getCommState : Nat → σ → Option DCB × σ
  setCommState : Nat → DCB → σ → Option PlatformError × σ
  setCommTimeouts : Nat → COMMTIMEOUTS → σ → Option PlatformError × σ
  setCommBreak : Nat → σ → Option PlatformError × σ
  clearCommBreak : Nat → σ → Option PlatformError × σ
  sleep : Int → σ → σ

deriving instance DecidableEq for Except

/-- Oracle state: one queue of prescribed outcomes per syscall, consumed
in call order, plus a log of every call made. -/
structure OracleSt where
  creates : List (Except PlatformError Nat)
  closes : List (Option PlatformError)
  reads : List (Nat × Option PlatformError)
  writes : List (Nat × Option PlatformError)
  gets : List (Option DCB)
  sets : List (Option PlatformError)
  timeoutSets : List (Option PlatformError)
  breakSets : List (Option PlatformError)
  breakClears : List (Option PlatformError)
  log : List Event
  deriving DecidableEq

/-- The all-empty oracle state. -/
def oracleEmpty : OracleSt := ⟨[], [], [], [], [], [], [], [], [], []⟩

/-- The oracle instance: each syscall pops its queue (succeeding by
default on an empty queue) and appends itself to the log. -/
def oracleSys : Sys OracleSt where
  createFile := fun path s =>
    (s.creates.headD (.error (.other 0)),
     { s with creates := s.creates.tail, log := s.log ++ [.createFile path] })
  closeHandle := fun h s =>
    (s.closes.headD none,
     { s with closes := s.closes.tail, log := s.log ++ [.closeHandle h] })
  readFile := fun h bufLen s =>
    (s.reads.headD (0, none),
     { s with reads := s.reads.tail, log := s.log ++ [.readFile h bufLen] })
  writeFile := fun h bufLen s =>
    (s.writes.headD (0, none),
     { s with writes := s.writes.tail, log := s.log ++ [.writeFile h bufLen] })
  getCommState := fun h s =>
    (s.gets.headD none,
     { s with gets := s.gets.tail, log := s.log ++ [.getCommState h] })
  setCommState := fun h d s =>
    (s.sets.headD none,
     { s with sets := s.sets.tail, log := s.log ++ [.setCommState h d] })
  setCommTimeouts := fun h t s =>
    (s.timeoutSets.headD none,
     { s with timeoutSets := s.timeoutSets.tail, log := s.log ++ [.setCommTimeouts h t] })
  setCommBreak := fun h s =>
    (s.breakSets.headD none,
     { s with breakSets := s.breakSets.tail, log := s.log ++ [.setCommBreak h] })
  clearCommBreak := fun h s =>
    (s.breakClears.headD none,
     { s with breakClears := s.breakClears.tail, log := s.log ++ [.clearCommBreak h] })
  sleep := fun ms s => { s with log := s.log ++ [.sleepEv ms] }

/-- Operating-system model for handle semantics: the table maps each
currently valid handle value to the pending input bytes of the device it
designates.  Closing removes the entry; the OS is free to hand the same
handle value out again for a different device later. -/
structure OSState where
  table : List (Nat × List Nat)
  deriving DecidableEq

/-- Look up a handle in the OS table. -/
def osFind (os : OSState) (h : Nat) : Option (Nat × List Nat) :=
  os.table.find? (fun e => e.1 == h)

/-- The OS hands out handle value `h` for a (new) device whose pending
input is `bytes` — also how a previously closed value gets reused. -/
def osAttach (os : OSState) (h : Nat) (bytes : List Nat) : OSState :=
  ⟨(h, bytes) :: os.table⟩

/-- Windows error 6, `ERROR_INVALID_HANDLE`: what a syscall on a stale
handle reports. -/
def invalidHandle : PlatformError := .other 6

/-- The OS instance: every syscall fails with `invalidHandle` unless the
handle is in the table; a read hands over pending bytes (up to the buffer
length) and a close removes the entry.  `createFile` is not modelled
(no device namespace); it always fails. -/
def osSys : Sys OSState where
  createFile := fun _ os => (.error (.other 2), os)
  closeHandle := fun h os =>
    match osFind os h with
    | none => (some invalidHandle, os)
    | some _ => (none, ⟨os.table.filter (fun e => e.1 != h)⟩)
  readFile := fun h bufLen os =>
    match osFind os h with
    | none => ((0, some invalidHandle), os)
    | some e =>
        let k := min e.2.length bufLen
        ((k, none),
         ⟨os.table.map (fun e₂ => if e₂.1 == h then (e₂.1, e₂.2.drop k) else e₂)⟩)
  writeFile := fun h bufLen os =>
    match osFind os h with
    | none => ((0, some invalidHandle), os)
    | some _ => ((bufLen, none), os)
  getCommState := fun h os =>
    match osFind os h with
    | none => (none, os)
    | some _ => (some dcbZero, os)
  setCommState := fun h _ os =>
    match osFind os h with
    | none => (some invalidHandle, os)
    | some _ => (none, os)
  setCommTimeouts := fun h _ os =>
    match osFind os h with
    | none => (some invalidHandle, os)
    | some _ => (none, os)
  setCommBreak := fun h os =>
    match osFind os h with
    | none => (some invalidHandle, os)
    | some _ => (none, os)
  clearCommBreak := fun h os =>
    match osFind os h with
    | none => (some invalidHandle, os)
    | some _ => (none, os)
  sleep := fun _ os => os

/-! ### The embedded Go functions -/

variable {σ : Type}

/-- Go function `func (port *SerialPort) Close() error`: returns the error
of `CloseHandle` verbatim; the struct keeps no record of the closure. -/
def Close (sys : Sys σ) (port : SerialPort) (s : σ) : Option PlatformError × σ :=
  sys.closeHandle port.handle s

/-- The `for` loop of `func (port *SerialPort) Read`, with the
`params := &DCB{}` buffer threaded through (a failed `GetCommState`
leaves it unchanged) and a fuel bound on the number of iterations
(`none` = the loop is still running after `fuel` iterations). -/
def ReadAux (sys : Sys σ) (h bufLen : Nat) : DCB → Nat → σ → Option ((Nat × Option PlatformError) × σ)
  | _, 0, _ => none
  | params, fuel + 1, s =>
    let r := sys.readFile h bufLen s
    match r.1.2 with
    | some e => some ((r.1.1, some e), r.2)
    | none =>
      if r.1.1 > 0 then some ((r.1.1, none), r.2)
      else
        let g := sys.getCommState h r.2
        let params₂ := g.1.getD params
        let w := sys.setCommState h params₂ g.2
        match w.1 with
        | some e =>
            let c := sys.closeHandle h w.2
            some ((0, some e), c.2)
        | none => ReadAux sys h bufLen params₂ fuel w.2

/-- Go function `func (port *SerialPort) Read(p []byte) (int, error)`. -/
def Read (sys : Sys σ) (h bufLen fuel : Nat) (s : σ) :
    Option ((Nat × Option PlatformError) × σ) :=
  ReadAux sys h bufLen dcbZero fuel s

/-- Go function `func (port *SerialPort) Write(p []byte) (int, error)`: one blocking
`WriteFile`, count and error returned verbatim. -/
def Write (sys : Sys σ) (h bufLen : Nat) (s : σ) : (Nat × Option PlatformError) × σ :=
  sys.writeFile h bufLen s

/-- Go function `func (port *SerialPort) SendBreak(breakTime int) error`:
`SetCommBreak`, sleep `breakTime` milliseconds, `ClearCommBreak`; either
break call failing closes the handle (ignoring the close's own error)
and returns `ERROR_INVALID_SERIAL_PORT`. -/
def SendBreak (sys : Sys σ) (h : Nat) (breakTime : Int) (s : σ) : Option PortError × σ :=
  let b := sys.setCommBreak h s
  match b.1 with
  | some _ =>
      let c := sys.closeHandle h b.2
      (some (.serial .ERROR_INVALID_SERIAL_PORT), c.2)
  | none =>
      let s₂ := sys.sleep breakTime b.2
      let r := sys.clearCommBreak h s₂
      match r.1 with
      | some _ =>
          let c := sys.closeHandle h r.2
          (some (.serial .ERROR_INVALID_SERIAL_PORT), c.2)
      | none => (none, r.2)

/-- Go function `func (port *SerialPort) SetMode(mode *Mode) error`: fetch the
record, rewrite it with `setModeDCB`, write it back; either native call
failing closes the handle (ignoring the close's own error) and returns
`ERROR_INVALID_SERIAL_PORT`. -/
def SetMode (sys : Sys σ) (h : Nat) (mode : Mode) (s : σ) : Option PortError × σ :=
  let g := sys.getCommState h s
  match g.1 with
  | none =>
      let c := sys.closeHandle h g.2
      (some (.serial .ERROR_INVALID_SERIAL_PORT), c.2)
  | some params =>
      let w := sys.setCommState h (setModeDCB mode params) g.2
      match w.1 with
      | some _ =>
          let c := sys.closeHandle h w.2
          (some (.serial .ERROR_INVALID_SERIAL_PORT), c.2)
      | none => (none, w.2)

/-- Go function `func OpenPort(portName string, mode *Mode) (*SerialPort, error)`,
step for step: path prefixing and UTF-16 conversion, `CreateFile` with
its error switch, `SetMode`, the flag/threshold overlay, and the timeout
installation, closing the handle on every failure past acquisition. -/
def OpenPort (sys : Sys σ) (portName : String) (mode : Mode) (s : σ) :
    Option SerialPort × Option PortError × σ :=
  let path := winPath portName
  if containsNul path then (none, some (.platform .einval), s)
  else
    let cf := sys.createFile path s
    match cf.1 with
    | .error .accessDenied => (none, some (.serial .ERROR_PORT_BUSY), cf.2)
    | .error .fileNotFound => (none, some (.serial .ERROR_PORT_NOT_FOUND), cf.2)
    | .error e => (none, some (.platform e), cf.2)
    | .ok handle =>
      let port : SerialPort := ⟨handle⟩
      let m := SetMode sys port.handle mode cf.2
      match m.1 with
      | some _ =>
          let c := sys.closeHandle port.handle m.2
          (none, some (.serial .ERROR_INVALID_SERIAL_PORT), c.2)
      | none =>
        let g := sys.getCommState port.handle m.2
        match g.1 with
        | none =>
            let c := sys.closeHandle port.handle g.2
            (none, some (.serial .ERROR_INVALID_SERIAL_PORT), c.2)
        | some params =>
          let w := sys.setCommState port.handle (openDCBTransform params) g.2
          match w.1 with
          | some _ =>
              let c := sys.closeHandle port.handle w.2
              (none, some (.serial .ERROR_INVALID_SERIAL_PORT), c.2)
          | none =>
            let t := sys.setCommTimeouts port.handle openTimeouts w.2
            match t.1 with
            | some _ =>
                let c := sys.closeHandle port.handle t.2
                (none, some (.serial .ERROR_INVALID_SERIAL_PORT), c.2)
            | none => (some port, none, t.2)

/-- The enumeration loop of `GetPortsList`: `count` calls to
`RegEnumValue` at indices `i, i+1, ...`; any failure aborts.  `enum`
returns the decoded data string of the entry (the `UTF16ToString(data)`
of the source; string decoding is abstracted). -/
def enumPorts (enum : Nat → Option String) : Nat → Nat → Option (List String)
  | _, 0 => some []
  | i, count + 1 =>
    match enum i with
    | none => none
    | some s => (enumPorts enum (i + 1) count).map (fun l => s :: l)

/-- Go function `func GetPortsList() ([]string, error)`: open the `SERIALCOMM`
registry key, query its value count, read every entry; every failure
returns the single `ERROR_ENUMERATING_PORTS` error.  `openOk` is
`RegOpenKeyEx`'s outcome, `queryRes` is `RegQueryInfoKey`'s value count
(`none` on failure) and `enum` is `RegEnumValue`. -/
def GetPortsList (openOk : Bool) (queryRes : Option Nat)
    (enum : Nat → Option String) : Except PortError (List String) :=
  if containsNul serialcommKey then .error (.serial .ERROR_ENUMERATING_PORTS)
  else if !openOk then .error (.serial .ERROR_ENUMERATING_PORTS)
  else
    match queryRes with
    | none => .error (.serial .ERROR_ENUMERATING_PORTS)
    | some count =>
      match enumPorts enum 0 count with
      | none => .error (.serial .ERROR_ENUMERATING_PORTS)
      | some list => .ok list

/-! ### Concrete inputs used by individual claims -/

/-- A concrete port name. -/
def com3str : String := "COM3"

/-- Oracle state for the probe counterexample: the first blocking read
succeeds with 0 bytes, the probe's `GetCommState` fails while its
`SetCommState` succeeds, and the retried read delivers 3 bytes. -/
def c1St : OracleSt :=
  { oracleEmpty with reads := [(0, none), (3, none)], gets := [none], sets := [none] }

/-- The final oracle state of the probe counterexample run. -/
def c1Final : OracleSt :=
  { oracleEmpty with
    log := [.readFile 1 10, .getCommState 1, .setCommState 1 dcbZero, .readFile 1 10] }

/-- Oracle state on which `OpenPort` acquires handle 7 and the `SetMode`
it performs fails at its `GetCommState`. -/
def c4St : OracleSt := { oracleEmpty with creates := [.ok 7], gets := [none] }

/-- A fetched control record whose DTR and RTS control fields hold the
handshake codes, as a device may report at open time. -/
def c6Input : DCB :=
  { dcbZero with Flags := DCB_DTR_CONTROL_HANDSHAKE ||| DCB_RTS_CONTROL_HANDSHAKE }

/-- A port object holding handle value 5. -/
def port5 : SerialPort := ⟨5⟩

/-- OS state in which handle 5 designates an idle device. -/
def os0 : OSState := ⟨[(5, [])]⟩

/-! ### Theorems -/

/-- Any terminating `Read` loop that reports no error reports a positive
byte count: the only error-free exit of the loop is the `readed > 0`
branch. -/
theorem readAux_pos_of_no_error (sys : Sys σ) (h bufLen : Nat) :
    ∀ (fuel : Nat) (params : DCB) (s : σ) (n : Nat) (s₂ : σ),
      ReadAux sys h bufLen params fuel s = some ((n, none), s₂) → 0 < n := by
  intro fuel
  induction fuel with
  | zero =>
      intro params s n s₂ hc
      simp [ReadAux] at hc
  | succ k ih =>
      intro params s n s₂ hc
      simp only [ReadAux] at hc
      split at hc
      · simp at hc
      · split at hc
        · rename_i hpos
          simp at hc
          omega
        · split at hc
          · simp at hc
          · exact ih _ _ _ _ hc

/-- C2: a failing blocking read returns its error at once (the log grows
by that single `ReadFile`, so there is no retry and no close); a read of
more than 0 bytes returns that count with no error; and an error-free
return always carries a positive count — `Read` never returns `(0, nil)`. -/
theorem C2_read_contract (h bufLen fuel n : Nat) (st : OracleSt) :
    (∀ e rRest, st.reads = (n, some e) :: rRest →
       Read oracleSys h bufLen (fuel + 1) st =
         some ((n, some e),
           { st with reads := rRest, log := st.log ++ [.readFile h bufLen] }))
    ∧ (∀ rRest, st.reads = (n, none) :: rRest → 0 < n →
       Read oracleSys h bufLen (fuel + 1) st =
         some ((n, none),
           { st with reads := rRest, log := st.log ++ [.readFile h bufLen] }))
    ∧ (∀ st₂, Read oracleSys h bufLen fuel st = some ((n, none), st₂) → 0 < n) := by
  refine ⟨?_, ?_, ?_⟩
  · intro e rRest hr
    rw [Read, ReadAux]
    simp [oracleSys, hr]
  · intro rRest hr hn
    rw [Read, ReadAux]
    simp [oracleSys, hr, hn]
  · intro st₂ hc
    exact readAux_pos_of_no_error oracleSys h bufLen fuel dcbZero st n st₂ hc

/-- Witness for C2 at concrete inputs: a read failing with platform
error 5 is surfaced as is, and a 2-byte read returns `(2, nil)`. -/
theorem C2_read_contract_witness :
    Read oracleSys 1 4 1 { oracleEmpty with reads := [(2, some (.other 5))] } =
      some ((2, some (.other 5)),
        { oracleEmpty with reads := [], log := [.readFile 1 4] })
    ∧ Read oracleSys 1 4 1 { oracleEmpty with reads := [(2, none)] } =
      some ((2, none),
        { oracleEmpty with reads := [], log := [.readFile 1 4] }) :=
  ⟨(C2_read_contract 1 4 0 2 { oracleEmpty with reads := [(2, some (.other 5))] }).1
      (.other 5) [] rfl,
   (C2_read_contract 1 4 0 2 { oracleEmpty with reads := [(2, none)] }).2.1
      [] rfl (by decide)⟩

/-- C1 counterexample: at `c1St` the get half of the probe's round-trip
fails (`gets = [none]`), yet `Read` neither closes the handle nor returns
the probe's error — it retries and returns `(3, nil)`; moreover the
record written back is the untouched zero buffer, not a fetched control
record. -/
theorem C1_probe_counterexample :
    c1St.gets = [none]
    ∧ Read oracleSys 1 10 2 c1St = some ((3, none), c1Final)
    ∧ Event.closeHandle 1 ∉ c1Final.log
    ∧ Event.setCommState 1 dcbZero ∈ c1Final.log := by
  refine ⟨rfl, by decide, by decide, by decide⟩

/-- C1 amended: the probe checks only its write-back half.  After a
0-byte read, `Read` calls `GetCommState` and then `SetCommState` with
whatever the fetch produced (the fetched record unchanged when the fetch
succeeds, the previous buffer contents when it fails — the fetch's error
is ignored); if the `SetCommState` fails, `Read` closes the handle and
returns that error, and if it succeeds `Read` retries the blocking
read. -/
theorem C1_probe_amended (h bufLen fuel : Nat) (params : DCB) (st : OracleSt)
    (g : Option DCB) (rRest : List (Nat × Option PlatformError))
    (gRest : List (Option DCB)) :
    st.reads = (0, none) :: rRest → st.gets = g :: gRest →
    (∀ e sRest, st.sets = some e :: sRest →
       ReadAux oracleSys h bufLen params (fuel + 1) st =
         some ((0, some e),
           { st with
             reads := rRest
             gets := gRest
             sets := sRest
             closes := st.closes.tail
             log := st.log ++ [.readFile h bufLen, .getCommState h,
               .setCommState h (g.getD params), .closeHandle h] }))
    ∧ (∀ sRest, st.sets = none :: sRest →
       ReadAux oracleSys h bufLen params (fuel + 1) st =
         ReadAux oracleSys h bufLen (g.getD params) fuel
           { st with
             reads := rRest
             gets := gRest
             sets := sRest
             log := st.log ++ [.readFile h bufLen, .getCommState h,
               .setCommState h (g.getD params)] }) := by
  intro hr hg
  constructor
  · intro e sRest hs
    rw [ReadAux]
    simp [oracleSys, hr, hg, hs]
  · intro sRest hs
    rw [ReadAux]
    simp [oracleSys, hr, hg, hs]

/-- Witness for C1's amended theorem at concrete inputs: a failing probe
write-back makes `Read` return its error after closing, and a succeeding
one makes it retry. -/
theorem C1_probe_amended_witness :
    ReadAux oracleSys 1 10 dcbZero 1
        { oracleEmpty with
          reads := [(0, none)]
          gets := [some dcbZero]
          sets := [some (.other 31)] } =
      some ((0, some (.other 31)),
        { oracleEmpty with
          log := [.readFile 1 10, .getCommState 1, .setCommState 1 dcbZero,
            .closeHandle 1] })
    ∧ ReadAux oracleSys 1 10 dcbZero 1
        { oracleEmpty with
          reads := [(0, none)]
          gets := [some dcbZero]
          sets := [none] } =
      ReadAux oracleSys 1 10 dcbZero 0
        { oracleEmpty with
          log := [.readFile 1 10, .getCommState 1, .setCommState 1 dcbZero] } :=
  ⟨(C1_probe_amended 1 10 0 dcbZero
      { oracleEmpty with
        reads := [(0, none)]
        gets := [some dcbZero]
        sets := [some (.other 31)] }
      (some dcbZero) [] [] rfl rfl).1 (.other 31) [] rfl,
   (C1_probe_amended 1 10 0 dcbZero
      { oracleEmpty with
        reads := [(0, none)]
        gets := [some dcbZero]
        sets := [none] }
      (some dcbZero) [] [] rfl rfl).2 [] rfl⟩

/-- C3: when `SetMode` fetches a control record, the record it writes
back is exactly `setModeDCB mode params`: baud rate 9600 when
`mode.BaudRate = 0` and `mode.BaudRate` otherwise, byte size 8 when
`mode.DataBits = 0` and `mode.DataBits` otherwise, stop-bit and parity
codes copied from the mode, every other field of the fetched record
unchanged (the trailing `tail₂` of the log is the possible
`CloseHandle` when the write-back fails). -/
theorem C3_setmode_record (h : Nat) (mode : Mode) (params : DCB) (st : OracleSt)
    (gRest : List (Option DCB)) :
    st.gets = some params :: gRest →
    mode.BaudRate < 2 ^ 32 → mode.DataBits < 2 ^ 8 →
    mode.StopBits < 2 ^ 8 → mode.Parity < 2 ^ 8 →
    (∃ tail₂, (SetMode oracleSys h mode st).2.log =
        st.log ++ [.getCommState h, .setCommState h (setModeDCB mode params)] ++ tail₂)
    ∧ (setModeDCB mode params).BaudRate = (if mode.BaudRate = 0 then 9600 else mode.BaudRate)
    ∧ (setModeDCB mode params).ByteSize = (if mode.DataBits = 0 then 8 else mode.DataBits)
    ∧ (setModeDCB mode params).StopBits = mode.StopBits
    ∧ (setModeDCB mode params).Parity = mode.Parity
    ∧ (setModeDCB mode params).DCBlength = params.DCBlength
    ∧ (setModeDCB mode params).Flags = params.Flags
    ∧ (setModeDCB mode params).wReserved = params.wReserved
    ∧ (setModeDCB mode params).XonLim = params.XonLim
    ∧ (setModeDCB mode params).XoffLim = params.XoffLim
    ∧ (setModeDCB mode params).XonChar = params.XonChar
    ∧ (setModeDCB mode params).XoffChar = params.XoffChar
    ∧ (setModeDCB mode params).ErrorChar = params.ErrorChar
    ∧ (setModeDCB mode params).EofChar = params.EofChar
    ∧ (setModeDCB mode params).EvtChar = params.EvtChar
    ∧ (setModeDCB mode params).wReserved1 = params.wReserved1 := by
  intro hg hb hd hs hp
  refine ⟨?_, ?_, ?_, ?_, ?_, rfl, rfl, rfl, rfl, rfl, rfl, rfl, rfl, rfl, rfl, rfl⟩
  · rcases hsets : st.sets with _ | ⟨e₀, sRest⟩
    · refine ⟨[], ?_⟩
      rw [SetMode]
      simp [oracleSys, hg, hsets]
    · rcases e₀ with _ | e
      · refine ⟨[], ?_⟩
        rw [SetMode]
        simp [oracleSys, hg, hsets]
      · refine ⟨[Event.closeHandle h], ?_⟩
        rw [SetMode]
        simp [oracleSys, hg, hsets]
  · simp only [setModeDCB]
    rw [Nat.mod_eq_of_lt hb]
  · simp only [setModeDCB]
    rw [Nat.mod_eq_of_lt hd]
  · simp only [setModeDCB]
    exact Nat.mod_eq_of_lt hs
  · simp only [setModeDCB]
    exact Nat.mod_eq_of_lt hp

/-- Witness for C3 at a concrete input: the all-default mode against a
fetched record with distinctive field values. -/
theorem C3_setmode_record_witness :
    ({ gets := [some ⟨28, 300, 77, 1, 11, 22, 7, 1, 2, 3, 4, 5, 6, 9, 8⟩]
       creates := [], closes := [], reads := [], writes := [], sets := []
       timeoutSets := [], breakSets := [], breakClears := [], log := [] } :
        OracleSt).gets =
      some ⟨28, 300, 77, 1, 11, 22, 7, 1, 2, 3, 4, 5, 6, 9, 8⟩ :: []
    ∧ (setModeDCB ⟨0, 0, 0, 0⟩ ⟨28, 300, 77, 1, 11, 22, 7, 1, 2, 3, 4, 5, 6, 9, 8⟩).BaudRate = 9600
    ∧ (setModeDCB ⟨0, 0, 0, 0⟩ ⟨28, 300, 77, 1, 11, 22, 7, 1, 2, 3, 4, 5, 6, 9, 8⟩).ByteSize = 8
    ∧ (setModeDCB ⟨0, 0, 0, 0⟩ ⟨28, 300, 77, 1, 11, 22, 7, 1, 2, 3, 4, 5, 6, 9, 8⟩).Flags = 77 := by
  have hmain := C3_setmode_record 1 ⟨0, 0, 0, 0⟩
    ⟨28, 300, 77, 1, 11, 22, 7, 1, 2, 3, 4, 5, 6, 9, 8⟩
    { gets := [some ⟨28, 300, 77, 1, 11, 22, 7, 1, 2, 3, 4, 5, 6, 9, 8⟩]
      creates := [], closes := [], reads := [], writes := [], sets := []
      timeoutSets := [], breakSets := [], breakClears := [], log := [] }
    [] rfl (by decide) (by decide) (by decide) (by decide)
  refine ⟨rfl, ?_, ?_, ?_⟩
  · rw [hmain.2.1]
    decide
  · rw [hmain.2.2.1]
    decide
  · rw [hmain.2.2.2.2.2.2.1]

/-- C5: when `CreateFile` fails, "access denied" is mapped to
`ERROR_PORT_BUSY`, "not found" to `ERROR_PORT_NOT_FOUND`, and any other
platform error is surfaced raw; in all three cases no handle is
returned. -/
theorem C5_open_failure_kinds (name : String) (mode : Mode) (st : OracleSt)
    (cRest : List (Except PlatformError Nat)) :
    containsNul (winPath name) = false →
    (st.creates = .error .accessDenied :: cRest →
       OpenPort oracleSys name mode st =
         (none, some (.serial .ERROR_PORT_BUSY),
          { st with creates := cRest, log := st.log ++ [.createFile (winPath name)] }))
    ∧ (st.creates = .error .fileNotFound :: cRest →
       OpenPort oracleSys name mode st =
         (none, some (.serial .ERROR_PORT_NOT_FOUND),
          { st with creates := cRest, log := st.log ++ [.createFile (winPath name)] }))
    ∧ (∀ e, st.creates = .error e :: cRest →
       e ≠ .accessDenied → e ≠ .fileNotFound →
       OpenPort oracleSys name mode st =
         (none, some (.platform e),
          { st with creates := cRest, log := st.log ++ [.createFile (winPath name)] })) := by
  intro hnul
  refine ⟨?_, ?_, ?_⟩
  · intro hc
    rw [OpenPort]
    simp [oracleSys, hnul, hc]
  · intro hc
    rw [OpenPort]
    simp [oracleSys, hnul, hc]
  · intro e hc had hnf
    rw [OpenPort]
    rcases e with _ | _ | _ | c
    · exact absurd rfl had
    · exact absurd rfl hnf
    · simp [oracleSys, hnul, hc]
    · simp [oracleSys, hnul, hc]

/-- Witness for C5 at concrete inputs: opening `COM3` with the oracle
reporting access-denied, not-found, and a raw error 87. -/
theorem C5_open_failure_kinds_witness :
    OpenPort oracleSys com3str ⟨0, 0, 0, 0⟩
        { oracleEmpty with creates := [.error .accessDenied] } =
      (none, some (.serial .ERROR_PORT_BUSY),
       { oracleEmpty with log := [.createFile (winPath com3str)] })
    ∧ OpenPort oracleSys com3str ⟨0, 0, 0, 0⟩
        { oracleEmpty with creates := [.error .fileNotFound] } =
      (none, some (.serial .ERROR_PORT_NOT_FOUND),
       { oracleEmpty with log := [.createFile (winPath com3str)] })
    ∧ OpenPort oracleSys com3str ⟨0, 0, 0, 0⟩
        { oracleEmpty with creates := [.error (.other 87)] } =
      (none, some (.platform (.other 87)),
       { oracleEmpty with log := [.createFile (winPath com3str)] }) :=
  ⟨(C5_open_failure_kinds com3str ⟨0, 0, 0, 0⟩
      { oracleEmpty with creates := [.error .accessDenied] } [] (by decide)).1 rfl,
   (C5_open_failure_kinds com3str ⟨0, 0, 0, 0⟩
      { oracleEmpty with creates := [.error .fileNotFound] } [] (by decide)).2.1 rfl,
   (C5_open_failure_kinds com3str ⟨0, 0, 0, 0⟩
      { oracleEmpty with creates := [.error (.other 87)] } [] (by decide)).2.2
      (.other 87) rfl (by decide) (by decide)⟩

/-- C4 counterexample: at `c4St` the handle is acquired and `SetMode`
fails, and `OpenPort` returns the code `ERROR_INVALID_SERIAL_PORT` — the
`InvalidSerialPort` kind — which is a different kind from the
`InvalidConfiguration` the claim names. -/
theorem C4_invalid_configuration_counterexample :
    OpenPort oracleSys com3str ⟨0, 0, 0, 0⟩ c4St =
      (none, some (.serial .ERROR_INVALID_SERIAL_PORT),
       { oracleEmpty with
         log := [.createFile (winPath com3str), .getCommState 7,
           .closeHandle 7, .closeHandle 7] })
    ∧ ErrorCode.ERROR_INVALID_SERIAL_PORT ≠ ErrorCode.ERROR_INVALID_CONFIGURATION := by
  exact ⟨by decide, by decide⟩

/-- C4 amended: when the handle is acquired and the mode application
fails (either half of `SetMode`'s record round-trip), `OpenPort` closes
the handle and returns no port together with the error kind
`InvalidSerialPort` (`ERROR_INVALID_SERIAL_PORT`; the code has no
separate `InvalidConfiguration` kind), and `OpenPort` never returns a
port together with an error. -/
theorem C4_open_setmode_failure_amended (name : String) (mode : Mode) (st : OracleSt)
    (h : Nat) (cRest : List (Except PlatformError Nat))
    (gRest : List (Option DCB)) :
    containsNul (winPath name) = false →
    st.creates = .ok h :: cRest →
    (st.gets = none :: gRest →
       OpenPort oracleSys name mode st =
         (none, some (.serial .ERROR_INVALID_SERIAL_PORT),
          { st with
            creates := cRest
            gets := gRest
            closes := st.closes.tail.tail
            log := st.log ++ [.createFile (winPath name), .getCommState h,
              .closeHandle h, .closeHandle h] }))
    ∧ (∀ d e sRest, st.gets = some d :: gRest → st.sets = some e :: sRest →
       OpenPort oracleSys name mode st =
         (none, some (.serial .ERROR_INVALID_SERIAL_PORT),
          { st with
            creates := cRest
            gets := gRest
            sets := sRest
            closes := st.closes.tail.tail
            log := st.log ++ [.createFile (winPath name), .getCommState h,
              .setCommState h (setModeDCB mode d), .closeHandle h, .closeHandle h] }))
    ∧ (∀ (st₃ : OracleSt) (port : SerialPort) (er : Option PortError) (st₂ : OracleSt),
       OpenPort oracleSys name mode st₃ = (some port, er, st₂) → er = none) := by
  intro hnul hc
  refine ⟨?_, ?_, ?_⟩
  · intro hg
    simp [OpenPort, SetMode, oracleSys, hnul, hc, hg]
  · intro d e sRest hg hs
    simp [OpenPort, SetMode, oracleSys, hnul, hc, hg, hs]
  · intro st₃ port er st₂ ho
    simp only [OpenPort] at ho
    split at ho
    · simp at ho
    · split at ho
      · simp at ho
      · simp at ho
      · simp at ho
      · split at ho
        · simp at ho
        · split at ho
          · simp at ho
          · split at ho
            · simp at ho
            · split at ho
              · simp at ho
              · simp at ho
                exact ho.2.1.symm

/-- Witness for C4's amended theorem: both `SetMode` failure shapes at
concrete oracle states. -/
theorem C4_open_setmode_failure_amended_witness :
    OpenPort oracleSys com3str ⟨0, 0, 0, 0⟩ c4St =
      (none, some (.serial .ERROR_INVALID_SERIAL_PORT),
       { oracleEmpty with
         log := [.createFile (winPath com3str), .getCommState 7,
           .closeHandle 7, .closeHandle 7] })
    ∧ OpenPort oracleSys com3str ⟨0, 0, 0, 0⟩
        { oracleEmpty with creates := [.ok 7], gets := [some dcbZero], sets := [some (.other 31)] } =
      (none, some (.serial .ERROR_INVALID_SERIAL_PORT),
       { oracleEmpty with
         log := [.createFile (winPath com3str), .getCommState 7,
           .setCommState 7 (setModeDCB ⟨0, 0, 0, 0⟩ dcbZero),
           .closeHandle 7, .closeHandle 7] }) :=
  ⟨(C4_open_setmode_failure_amended com3str ⟨0, 0, 0, 0⟩ c4St 7 [] [] (by decide) rfl).1 rfl,
   (C4_open_setmode_failure_amended com3str ⟨0, 0, 0, 0⟩
      { oracleEmpty with creates := [.ok 7], gets := [some dcbZero], sets := [some (.other 31)] }
      7 [] [] (by decide) rfl).2.1 dcbZero (.other 31) [] rfl rfl⟩

/-- C10: on the `SetMode`-failure path of `OpenPort`, the handle has
already been closed inside `SetMode` and `OpenPort` closes it again: the
log acquires exactly two `CloseHandle` events for the same handle
value. -/
theorem C10_double_close (name : String) (mode : Mode) (st : OracleSt)
    (h : Nat) (cRest : List (Except PlatformError Nat))
    (gRest : List (Option DCB)) :
    containsNul (winPath name) = false →
    st.creates = .ok h :: cRest →
    (st.gets = none :: gRest →
       (OpenPort oracleSys name mode st).2.2.log.count (Event.closeHandle h) =
         st.log.count (Event.closeHandle h) + 2)
    ∧ (∀ d e sRest, st.gets = some d :: gRest → st.sets = some e :: sRest →
       (OpenPort oracleSys name mode st).2.2.log.count (Event.closeHandle h) =
         st.log.count (Event.closeHandle h) + 2) := by
  intro hnul hc
  constructor
  · intro hg
    simp [OpenPort, SetMode, oracleSys, hnul, hc, hg, List.count_append, List.count_cons]
  · intro d e sRest hg hs
    simp [OpenPort, SetMode, oracleSys, hnul, hc, hg, hs, List.count_append, List.count_cons]

/-- Witness for C10: the two closes of handle 7 at the concrete state
`c4St`. -/
theorem C10_double_close_witness :
    (OpenPort oracleSys com3str ⟨0, 0, 0, 0⟩ c4St).2.2.log.count (Event.closeHandle 7) =
      c4St.log.count (Event.closeHandle 7) + 2 :=
  (C10_double_close com3str ⟨0, 0, 0, 0⟩ c4St 7 [] [] (by decide) rfl).1 rfl

/-- C6: evaluation of `OpenPort`'s flag overlay at the failing input
`c6Input` (a fetched record whose DTR/RTS control fields hold the
handshake codes).  Because the source ORs the enable bits in without
first clearing the two-bit fields (its `DCB_DTR_CONTROL_DISABLE_MASK` /
`DCB_RTS_CONTROL_DISABLE_MASK` constants are defined but never applied),
the resulting RTS control field is the toggle code and the DTR control
field is the invalid code `0x30` — neither is forced to "enabled".  The
remaining overlays of the claim do hold at this input, as does the
timeout record. -/
theorem C6_open_flags_code_bug :
    (openDCBTransform c6Input).Flags &&& 0x30 ≠ DCB_DTR_CONTROL_ENABLE
    ∧ (openDCBTransform c6Input).Flags &&& 0x3000 = DCB_RTS_CONTROL_TOGGLE
    ∧ DCB_RTS_CONTROL_TOGGLE ≠ DCB_RTS_CONTROL_ENABLE
    ∧ (openDCBTransform c6Input).Flags &&& DCB_OUT_X_CTS_FLOW = 0
    ∧ (openDCBTransform c6Input).Flags &&& DCB_OUT_X_DSR_FLOW = 0
    ∧ (openDCBTransform c6Input).Flags &&& DCB_DSR_SENSITIVITY = 0
    ∧ (openDCBTransform c6Input).XonLim = 2048
    ∧ (openDCBTransform c6Input).XoffLim = 512
    ∧ (openDCBTransform c6Input).XonChar = 0x11
    ∧ (openDCBTransform c6Input).XoffChar = 0x13
    ∧ openTimeouts.ReadIntervalTimeout = 0xFFFFFFFF
    ∧ openTimeouts.ReadTotalTimeoutMultiplier = 0xFFFFFFFF
    ∧ openTimeouts.ReadTotalTimeoutConstant = 1000
    ∧ openTimeouts.WriteTotalTimeoutMultiplier = 0
    ∧ openTimeouts.WriteTotalTimeoutConstant = 0 := by decide

/-- C7 counterexample: `Close` on the port holding handle 5 succeeds,
the OS reuses handle value 5 for another device with two pending bytes,
and a subsequent `Read` on the very same closed port object succeeds with
`(2, nil)` instead of failing — nothing in `SerialPort` records the
closure. -/
theorem C7_stale_handle_counterexample :
    (Close osSys port5 os0).1 = none
    ∧ (Close osSys port5 os0).2 = (⟨[]⟩ : OSState)
    ∧ Read osSys port5.handle 10 1 (osAttach (Close osSys port5 os0).2 5 [65, 66]) =
        some ((2, none), ⟨[(5, [])]⟩) := by
  exact ⟨by decide, by decide, by decide⟩

/-- C7 amended: the port object has no open/closed flag, so operations
after `Close` still issue syscalls on the stored handle value; they fail
exactly because (and as long as) the operating system rejects the stale
handle.  While the closed handle value is not reassigned, every
operation other than `Close` — `Read`, `Write`, `SetMode`, `SendBreak` —
fails. -/
theorem C7_stale_handle_amended (os : OSState) (h bufLen fuel : Nat)
    (mode : Mode) (t : Int) :
    osFind os h = none →
    Read osSys h bufLen (fuel + 1) os = some ((0, some invalidHandle), os)
    ∧ (Write osSys h bufLen os).1 = (0, some invalidHandle)
    ∧ (SetMode osSys h mode os).1 = some (.serial .ERROR_INVALID_SERIAL_PORT)
    ∧ (SendBreak osSys h t os).1 = some (.serial .ERROR_INVALID_SERIAL_PORT) := by
  intro hf
  refine ⟨?_, ?_, ?_, ?_⟩
  · rw [Read, ReadAux]
    simp [osSys, hf]
  · simp [Write, osSys, hf]
  · simp [SetMode, osSys, hf]
  · simp [SendBreak, osSys, hf]

/-- Witness for C7's amended theorem: on the empty OS table every
operation on handle 5 fails. -/
theorem C7_stale_handle_amended_witness :
    Read osSys 5 10 1 ⟨[]⟩ = some ((0, some invalidHandle), (⟨[]⟩ : OSState))
    ∧ (Write osSys 5 10 (⟨[]⟩ : OSState)).1 = (0, some invalidHandle)
    ∧ (SetMode osSys 5 ⟨0, 0, 0, 0⟩ (⟨[]⟩ : OSState)).1 =
        some (.serial .ERROR_INVALID_SERIAL_PORT)
    ∧ (SendBreak osSys 5 250 (⟨[]⟩ : OSState)).1 =
        some (.serial .ERROR_INVALID_SERIAL_PORT) :=
  C7_stale_handle_amended ⟨[]⟩ 5 10 0 ⟨0, 0, 0, 0⟩ 250 rfl

/-- The enumeration loop, when it succeeds, returns one string per index
of the requested range, in order. -/
theorem enumPorts_complete (enum : Nat → Option String) :
    ∀ (count i : Nat) (l : List String), enumPorts enum i count = some l →
      l.length = count ∧ ∀ j, j < count → l.get? j = enum (i + j) := by
  intro count
  induction count with
  | zero =>
      intro i l he
      simp only [enumPorts, Option.some.injEq] at he
      subst he
      exact ⟨rfl, by omega⟩
  | succ k ih =>
      intro i l he
      simp only [enumPorts] at he
      rcases hi : enum i with _ | s
      · rw [hi] at he
        simp at he
      · rw [hi] at he
        simp only [Option.map_eq_some'] at he
        rcases he with ⟨l₀, hl₀, rfl⟩
        rcases ih (i + 1) l₀ hl₀ with ⟨hlen, hget⟩
        refine ⟨by simp [hlen], ?_⟩
        intro j hj
        cases j with
        | zero => simp [hi]
        | succ j₀ =>
            have := hget j₀ (by omega)
            simpa [Nat.add_assoc, Nat.add_comm 1 j₀] using this

/-- C8: `GetPortsList` returns either the single
`ERROR_ENUMERATING_PORTS` error — whichever stage failed — or the
complete list: one entry per registry index, of length exactly the
registry's reported value count.  A partial list is never returned. -/
theorem C8_ports_all_or_nothing (openOk : Bool) (queryRes : Option Nat)
    (enum : Nat → Option String) :
    GetPortsList openOk queryRes enum = .error (.serial .ERROR_ENUMERATING_PORTS)
    ∨ ∃ count l, queryRes = some count
        ∧ GetPortsList openOk queryRes enum = .ok l
        ∧ l.length = count
        ∧ ∀ j, j < count → l.get? j = enum j := by
  have hkey : containsNul serialcommKey = false := by decide
  cases openOk with
  | false => exact Or.inl (by simp [GetPortsList, hkey])
  | true =>
      cases queryRes with
      | none => exact Or.inl (by simp [GetPortsList, hkey])
      | some count =>
          rcases he : enumPorts enum 0 count with _ | l
          · exact Or.inl (by simp [GetPortsList, hkey, he])
          · refine Or.inr ⟨count, l, rfl, by simp [GetPortsList, hkey, he], ?_, ?_⟩
            · exact (enumPorts_complete enum count 0 l he).1
            · intro j hj
              have := (enumPorts_complete enum count 0 l he).2 j hj
              simpa using this

/-- C9: `SendBreak` asserts the break; if that fails it closes the
handle and returns `InvalidSerialPort` without sleeping or clearing (the
log shows only the two calls); otherwise it sleeps the requested number
of milliseconds and deasserts, a failure there likewise closing the
handle and returning `InvalidSerialPort`; on success the log shows
assert, sleep, clear in that order and `nil` is returned. -/
theorem C9_send_break (h : Nat) (t : Int) (st : OracleSt) :
    (∀ e bRest, st.breakSets = some e :: bRest →
       SendBreak oracleSys h t st =
         (some (.serial .ERROR_INVALID_SERIAL_PORT),
          { st with
            breakSets := bRest
            closes := st.closes.tail
            log := st.log ++ [.setCommBreak h, .closeHandle h] }))
    ∧ (∀ bRest e cRest, st.breakSets = none :: bRest → st.breakClears = some e :: cRest →
       SendBreak oracleSys h t st =
         (some (.serial .ERROR_INVALID_SERIAL_PORT),
          { st with
            breakSets := bRest
            breakClears := cRest
            closes := st.closes.tail
            log := st.log ++ [.setCommBreak h, .sleepEv t, .clearCommBreak h,
              .closeHandle h] }))
    ∧ (∀ bRest cRest, st.breakSets = none :: bRest → st.breakClears = none :: cRest →
       SendBreak oracleSys h t st =
         (none,
          { st with
            breakSets := bRest
            breakClears := cRest
            log := st.log ++ [.setCommBreak h, .sleepEv t, .clearCommBreak h] })) := by
  refine ⟨?_, ?_, ?_⟩
  · intro e bRest hb
    simp [SendBreak, oracleSys, hb]
  · intro bRest e cRest hb hcl
    simp [SendBreak, oracleSys, hb, hcl]
  · intro bRest cRest hb hcl
    simp [SendBreak, oracleSys, hb, hcl]

/-- Witness for C9: the three outcomes at concrete oracle states, with a
250 ms break. -/
theorem C9_send_break_witness :
    SendBreak oracleSys 3 250 { oracleEmpty with breakSets := [some (.other 22)] } =
      (some (.serial .ERROR_INVALID_SERIAL_PORT),
       { oracleEmpty with log := [.setCommBreak 3, .closeHandle 3] })
    ∧ SendBreak oracleSys 3 250
        { oracleEmpty with breakSets := [none], breakClears := [some (.other 22)] } =
      (some (.serial .ERROR_INVALID_SERIAL_PORT),
       { oracleEmpty with
         log := [.setCommBreak 3, .sleepEv 250, .clearCommBreak 3, .closeHandle 3] })
    ∧ SendBreak oracleSys 3 250
        { oracleEmpty with breakSets := [none], breakClears := [none] } =
      (none,
       { oracleEmpty with
         log := [.setCommBreak 3, .sleepEv 250, .clearCommBreak 3] }) :=
  ⟨(C9_send_break 3 250 { oracleEmpty with breakSets := [some (.other 22)] }).1
      (.other 22) [] rfl,
   (C9_send_break 3 250
      { oracleEmpty with breakSets := [none], breakClears := [some (.other 22)] }).2.1
      [] (.other 22) [] rfl rfl,
   (C9_send_break 3 250
      { oracleEmpty with breakSets := [none], breakClears := [none] }).2.2
      [] [] rfl rfl⟩

end Serial
